import Mathlib

/-!
Verification of `memcmp32_s` from safestringlib (src/safeclib/memcmp32_s.c).

The function compares two buffers of 32-bit unsigned elements after a fixed
sequence of runtime-constraint checks, writing a signed difference through an
out-parameter and reporting a discriminated outcome code.

Shallow embedding choices:
* Addresses are natural numbers; a C pointer is `Option Addr` (`none` = NULL).
* Memory is split into the 32-bit element cells (`m32 : Addr → Nat`, read
  modulo 2^32, matching `uint32_t` loads) and the `int` cells (`mInt`), one of
  which the `diff` out-parameter points at.  The source never stores into the
  element memory and only stores through `diff`, which the state-passing
  embedding reflects with `Function.update` on `mInt` alone.
* The instrumented output records the return code, the final memory state, the
  list of element addresses read (in order), and the constraint-handler
  invocations `(message, context, error)` — the source always passes a NULL
  context.
* `RSIZE_MAX_MEM32` is defined in a library header that is not among the
  provided sources; the development is parametric in that limit (`rmax32`).
* Outcome codes `EOK / ESNULLP / ESZEROL / ESLEMAX` are modelled as an
  inductive type; `RCNEGATE` (an identity wrapper in userland builds) is
  absorbed into the code itself.
-/

abbrev Addr := Nat

/-- Outcome codes returned by `memcmp32_s`. -/
inductive Errno where
  | EOK : Errno
  | ESNULLP : Errno
  | ESZEROL : Errno
  | ESLEMAX : Errno
deriving DecidableEq, Repr

/-- Memory state: 32-bit element cells and `int` cells (disjoint spaces). -/
structure MemState where
  m32 : Addr → Nat
  mInt : Addr → Int

/-- A `uint32_t` load: the stored value reduced modulo 2^32. -/
def read32 (st : MemState) (a : Addr) : Nat :=
  st.m32 a % 4294967296

/-- A store through an `int *` pointer. -/
def writeInt (st : MemState) (a : Addr) (v : Int) : MemState :=
  ⟨st.m32, Function.update st.mInt a v⟩

/-- Unsigned 32-bit wraparound subtraction `d - s` (operands already < 2^32). -/
def usub32 (d s : Nat) : Nat :=
  (d + 4294967296 - s) % 4294967296

/-- Reinterpret a `uint32_t` value as a two's-complement 32-bit `int`. -/
def toInt32 (v : Nat) : Int :=
  if v < 2147483648 then (v : Int) else (v : Int) - 4294967296

/-- Instrumented result of one call: return code, final memory, the element
addresses read in order, and the constraint-handler calls
`(message, context pointer, error kind)`. -/
structure Out where
  ret : Errno
  st : MemState
  reads : List Addr
  handlers : List (String × Option Addr × Errno)

/-- The comparison loop of `memcmp32_s`:
`while (dmax != 0 && smax != 0) { if (*dest != *src) { *diff = *dest - *src; break; } dmax--; smax--; dest++; src++; }`.
Returns the value stored into `*diff` at the first mismatch (`none` when the
loop runs out with no mismatch) and the element addresses read, in order. -/
def scan32 (st : MemState) : Nat → Nat → Addr → Addr → Option Int × List Addr
  | 0, _, _, _ => (none, [])
  | _ + 1, 0, _, _ => (none, [])
  | dm + 1, sm + 1, dest, src =>
    if read32 st dest ≠ read32 st src then
      (some (toInt32 (usub32 (read32 st dest) (read32 st src))), [dest, src])
    else
      let r := scan32 st dm sm (dest + 1) (src + 1)
      (r.1, dest :: src :: r.2)

/-- `memcmp32_s(dest, dmax, src, smax, diff)` embedded from
src/safeclib/memcmp32_s.c, parametric in the `RSIZE_MAX_MEM32` limit. -/
def memcmp32_s (rmax32 : Nat) (st : MemState) (dest : Option Addr) (dmax : Nat)
    (src : Option Addr) (smax : Nat) (diff : Option Addr) : Out :=
  match diff with
  | none =>
    ⟨Errno.ESNULLP, st, [], [("memcmp32_s: diff is null", none, Errno.ESNULLP)]⟩
  | some dA =>
    let st1 := writeInt st dA (-1)
    match dest with
    | none =>
      ⟨Errno.ESNULLP, st1, [],
        [("memcmp32_s: dest is null", none, Errno.ESNULLP)]⟩
    | some destA =>
      match src with
      | none =>
        ⟨Errno.ESNULLP, st1, [],
          [("memcmp32_s: src is null", none, Errno.ESNULLP)]⟩
      | some srcA =>
        if dmax = 0 then
          ⟨Errno.ESZEROL, st1, [],
            [("memcmp32_s: dmax is 0", none, Errno.ESZEROL)]⟩
        else if dmax > rmax32 then
          ⟨Errno.ESLEMAX, st1, [],
            [("memcmp32_s: dmax exceeds max", none, Errno.ESLEMAX)]⟩
        else if smax = 0 then
          ⟨Errno.ESZEROL, st1, [],
            [("memcmp32_s: smax is 0", none, Errno.ESZEROL)]⟩
        else if smax > dmax then
          ⟨Errno.ESLEMAX, st1, [],
            [("memcmp32_s: smax exceeds dmax", none, Errno.ESLEMAX)]⟩
        else if destA = srcA then
          ⟨Errno.EOK, writeInt st1 dA 0, [], []⟩
        else
          let st2 := writeInt st1 dA 0
          let r := scan32 st2 dmax smax destA srcA
          match r.1 with
          | none => ⟨Errno.EOK, st2, r.2, []⟩
          | some v => ⟨Errno.EOK, writeInt st2 dA v, r.2, []⟩

/-- Spec-side description of the constraint checks, in the order §4.1 of the
spec lists them; returns the error of the first violated constraint. -/
def firstViolation (rmax32 : Nat) (dest : Option Addr) (dmax : Nat)
    (src : Option Addr) (smax : Nat) (diff : Option Addr) : Option Errno :=
  if diff = none then some Errno.ESNULLP
  else if dest = none then some Errno.ESNULLP
  else if src = none then some Errno.ESNULLP
  else if dmax = 0 then some Errno.ESZEROL
  else if dmax > rmax32 then some Errno.ESLEMAX
  else if smax = 0 then some Errno.ESZEROL
  else if smax > dmax then some Errno.ESLEMAX
  else none

/-- All seven constraints hold (spec-side, conjunction form). -/
def constraintsOK (rmax32 : Nat) (dest : Option Addr) (dmax : Nat)
    (src : Option Addr) (smax : Nat) (diff : Option Addr) : Prop :=
  diff ≠ none ∧ dest ≠ none ∧ src ≠ none ∧ dmax ≠ 0 ∧ dmax ≤ rmax32 ∧
    smax ≠ 0 ∧ smax ≤ dmax

instance (rmax32 : Nat) (dest : Option Addr) (dmax : Nat) (src : Option Addr)
    (smax : Nat) (diff : Option Addr) :
    Decidable (constraintsOK rmax32 dest dmax src smax diff) := by
  unfold constraintsOK; infer_instance

/-- Index of the first mismatching element pair among the next `n` pairs. -/
def firstMismatch (st : MemState) (dA sA : Addr) : Nat → Option Nat
  | 0 => none
  | n + 1 =>
    if read32 st dA ≠ read32 st sA then some 0
    else (firstMismatch st (dA + 1) (sA + 1) n).map Nat.succ

/-- Number of element pairs the scan examines: up to and including the first
mismatch, or all `min dmax smax` pairs when there is none. -/
def examined (st : MemState) (dA sA : Addr) (dmax smax : Nat) : Nat :=
  match firstMismatch st dA sA (min dmax smax) with
  | some k => k + 1
  | none => min dmax smax

/-- The interleaved read trace of a lock-step scan over `n` element pairs. -/
def readTrace (dA sA : Addr) : Nat → List Addr
  | 0 => []
  | n + 1 => dA :: sA :: readTrace (dA + 1) (sA + 1) n

theorem read32_writeInt (st : MemState) (a : Addr) (v : Int) (b : Addr) :
    read32 (writeInt st a v) b = read32 st b := rfl

theorem scan32_writeInt (st : MemState) (a : Addr) (v : Int) :
    ∀ (dmax smax : Nat) (dA sA : Addr),
    scan32 (writeInt st a v) dmax smax dA sA = scan32 st dmax smax dA sA
  | 0, _, _, _ => rfl
  | _ + 1, 0, _, _ => rfl
  | dm + 1, sm + 1, dA, sA => by
    simp only [scan32, read32_writeInt,
      scan32_writeInt st a v dm sm (dA + 1) (sA + 1)]

theorem firstMismatch_writeInt (st : MemState) (a : Addr) (v : Int) :
    ∀ (n : Nat) (dA sA : Addr),
    firstMismatch (writeInt st a v) dA sA n = firstMismatch st dA sA n
  | 0, _, _ => rfl
  | n + 1, dA, sA => by
    simp only [firstMismatch, read32_writeInt,
      firstMismatch_writeInt st a v n (dA + 1) (sA + 1)]

theorem examined_writeInt (st : MemState) (a : Addr) (v : Int)
    (dA sA : Addr) (dmax smax : Nat) :
    examined (writeInt st a v) dA sA dmax smax = examined st dA sA dmax smax := by
  simp only [examined, firstMismatch_writeInt]

theorem scan32_eq (st : MemState) :
    ∀ (dmax smax : Nat) (dA sA : Addr),
    scan32 st dmax smax dA sA =
      ((firstMismatch st dA sA (min dmax smax)).map
          (fun k => toInt32 (usub32 (read32 st (dA + k)) (read32 st (sA + k)))),
        readTrace dA sA (examined st dA sA dmax smax))
  | 0, smax, dA, sA => by
    simp [scan32, firstMismatch, examined, readTrace]
  | dm + 1, 0, dA, sA => by
    simp [scan32, firstMismatch, examined, readTrace]
  | dm + 1, sm + 1, dA, sA => by
    by_cases h : read32 st dA = read32 st sA
    · have ih := scan32_eq st dm sm (dA + 1) (sA + 1)
      cases hm : firstMismatch st (dA + 1) (sA + 1) (min dm sm) with
      | none =>
        simp [scan32, h, ih, hm, examined, firstMismatch, Nat.succ_min_succ,
          readTrace]
      | some k =>
        have harg : ∀ b : Addr, b + (k + 1) = b + 1 + k := by intro b; ring
        simp [scan32, h, ih, hm, examined, firstMismatch, Nat.succ_min_succ,
          readTrace, harg dA, harg sA]
    · simp [scan32, h, examined, firstMismatch, Nat.succ_min_succ, readTrace]

theorem firstMismatch_eq_none (st : MemState) :
    ∀ (n : Nat) (dA sA : Addr),
    (∀ j, j < n → read32 st (dA + j) = read32 st (sA + j)) →
    firstMismatch st dA sA n = none
  | 0, _, _, _ => rfl
  | n + 1, dA, sA, h => by
    have h0 : read32 st dA = read32 st sA := by
      have := h 0 (Nat.succ_pos n); simpa using this
    have hrest : ∀ j, j < n → read32 st (dA + 1 + j) = read32 st (sA + 1 + j) := by
      intro j hj
      have harg : ∀ b : Addr, b + 1 + j = b + (j + 1) := by intro b; ring
      rw [harg dA, harg sA]
      exact h (j + 1) (by omega)
    simp [firstMismatch, h0, firstMismatch_eq_none st n (dA + 1) (sA + 1) hrest]

theorem firstMismatch_eq_some (st : MemState) :
    ∀ (i n : Nat) (dA sA : Addr), i < n →
    (∀ j, j < i → read32 st (dA + j) = read32 st (sA + j)) →
    read32 st (dA + i) ≠ read32 st (sA + i) →
    firstMismatch st dA sA n = some i
  | 0, n, dA, sA, hn, _, hne => by
    obtain ⟨m, rfl⟩ : ∃ m, n = m + 1 := ⟨n - 1, by omega⟩
    have h0 : read32 st dA ≠ read32 st sA := by simpa using hne
    simp [firstMismatch, h0]
  | i + 1, n, dA, sA, hn, heq, hne => by
    obtain ⟨m, rfl⟩ : ∃ m, n = m + 1 := ⟨n - 1, by omega⟩
    have h0 : read32 st dA = read32 st sA := by
      have := heq 0 (Nat.succ_pos i); simpa using this
    have harg : ∀ (b : Addr) (j : Nat), b + 1 + j = b + (j + 1) := by intro b j; ring
    have heq' : ∀ j, j < i → read32 st (dA + 1 + j) = read32 st (sA + 1 + j) := by
      intro j hj
      rw [harg dA, harg sA]
      exact heq (j + 1) (by omega)
    have hne' : read32 st (dA + 1 + i) ≠ read32 st (sA + 1 + i) := by
      rw [harg dA, harg sA]; exact hne
    simp [firstMismatch, h0,
      firstMismatch_eq_some st i m (dA + 1) (sA + 1) (by omega) heq' hne']

theorem firstMismatch_lt (st : MemState) :
    ∀ (n : Nat) (dA sA : Addr) (k : Nat),
    firstMismatch st dA sA n = some k → k < n
  | 0, _, _, _, h => by simp [firstMismatch] at h
  | n + 1, dA, sA, k, h => by
    by_cases h0 : read32 st dA = read32 st sA
    · simp [firstMismatch, h0] at h
      obtain ⟨k', hk', rfl⟩ := h
      exact Nat.succ_lt_succ (firstMismatch_lt st n (dA + 1) (sA + 1) k' hk')
    · simp [firstMismatch, h0] at h
      omega

theorem examined_le (st : MemState) (dA sA : Addr) (dmax smax : Nat) :
    examined st dA sA dmax smax ≤ min dmax smax := by
  unfold examined
  cases hm : firstMismatch st dA sA (min dmax smax) with
  | none => exact Nat.le_refl _
  | some k => exact firstMismatch_lt st _ dA sA k hm

theorem memcmp32_s_same (rmax32 : Nat) (st : MemState) (a : Addr) (dmax : Nat)
    (smax : Nat) (dA : Addr) (h1 : dmax ≠ 0) (h2 : dmax ≤ rmax32)
    (h3 : smax ≠ 0) (h4 : smax ≤ dmax) :
    memcmp32_s rmax32 st (some a) dmax (some a) smax (some dA) =
      ⟨Errno.EOK, writeInt st dA 0, [], []⟩ := by
  have h2' : ¬dmax > rmax32 := not_lt.mpr h2
  have h4' : ¬smax > dmax := not_lt.mpr h4
  simp [memcmp32_s, if_neg h1, if_neg h2', if_neg h3, if_neg h4', writeInt,
    Function.update_idem]

theorem memcmp32_s_valid (rmax32 : Nat) (st : MemState) (destA : Addr)
    (dmax : Nat) (srcA : Addr) (smax : Nat) (dA : Addr) (h1 : dmax ≠ 0)
    (h2 : dmax ≤ rmax32) (h3 : smax ≠ 0) (h4 : smax ≤ dmax)
    (h5 : destA ≠ srcA) :
    memcmp32_s rmax32 st (some destA) dmax (some srcA) smax (some dA) =
      match (scan32 st dmax smax destA srcA).1 with
      | none =>
        ⟨Errno.EOK, writeInt st dA 0, (scan32 st dmax smax destA srcA).2, []⟩
      | some v =>
        ⟨Errno.EOK, writeInt st dA v, (scan32 st dmax smax destA srcA).2, []⟩ := by
  have h2' : ¬dmax > rmax32 := not_lt.mpr h2
  have h4' : ¬smax > dmax := not_lt.mpr h4
  have hcol : writeInt (writeInt st dA (-1)) dA 0 = writeInt st dA 0 := by
    simp [writeInt, Function.update_idem]
  simp only [memcmp32_s, if_neg h1, if_neg h2', if_neg h3, if_neg h4',
    if_neg h5, hcol, scan32_writeInt]
  cases hsc : (scan32 st dmax smax destA srcA).1 with
  | none => simp [hsc]
  | some v => simp [hsc, writeInt, Function.update_idem]

theorem memcmp32_s_ret (rmax32 : Nat) (st : MemState) (dest : Option Addr)
    (dmax : Nat) (src : Option Addr) (smax : Nat) (diff : Option Addr) :
    (memcmp32_s rmax32 st dest dmax src smax diff).ret =
      (firstViolation rmax32 dest dmax src smax diff).getD Errno.EOK := by
  rcases diff with _ | dA
  · rfl
  rcases dest with _ | destA
  · rfl
  rcases src with _ | srcA
  · rfl
  by_cases h1 : dmax = 0
  · simp [memcmp32_s, firstViolation, h1]
  by_cases h2 : dmax > rmax32
  · simp [memcmp32_s, firstViolation, h1, h2]
  by_cases h3 : smax = 0
  · simp [memcmp32_s, firstViolation, h1, h2, h3]
  by_cases h4 : smax > dmax
  · simp [memcmp32_s, firstViolation, h1, h2, h3, h4]
  by_cases h5 : destA = srcA
  · subst h5
    rw [memcmp32_s_same rmax32 st destA dmax smax dA h1 (not_lt.mp h2) h3
      (not_lt.mp h4)]
    simp [firstViolation, h1, h2, h3, h4]
  · rw [memcmp32_s_valid rmax32 st destA dmax srcA smax dA h1 (not_lt.mp h2)
      h3 (not_lt.mp h4) h5]
    cases hsc : (scan32 st dmax smax destA srcA).1 <;>
      simp [hsc, firstViolation, h1, h2, h3, h4]

theorem memcmp32_s_st_eq (rmax32 : Nat) (st : MemState) (dest : Option Addr)
    (dmax : Nat) (src : Option Addr) (smax : Nat) (dA : Addr) :
    ∃ w : Int, (memcmp32_s rmax32 st dest dmax src smax (some dA)).st =
      writeInt st dA w := by
  rcases dest with _ | destA
  · exact ⟨-1, rfl⟩
  rcases src with _ | srcA
  · exact ⟨-1, rfl⟩
  by_cases h1 : dmax = 0
  · exact ⟨-1, by simp [memcmp32_s, h1]⟩
  by_cases h2 : dmax > rmax32
  · exact ⟨-1, by simp [memcmp32_s, h1, h2]⟩
  by_cases h3 : smax = 0
  · exact ⟨-1, by simp [memcmp32_s, h1, h2, h3]⟩
  by_cases h4 : smax > dmax
  · exact ⟨-1, by simp [memcmp32_s, h1, h2, h3, h4]⟩
  by_cases h5 : destA = srcA
  · subst h5
    exact ⟨0, by
      rw [memcmp32_s_same rmax32 st destA dmax smax dA h1 (not_lt.mp h2) h3
        (not_lt.mp h4)]⟩
  · rw [memcmp32_s_valid rmax32 st destA dmax srcA smax dA h1 (not_lt.mp h2)
      h3 (not_lt.mp h4) h5]
    cases hsc : (scan32 st dmax smax destA srcA).1 with
    | none => exact ⟨0, by simp [hsc]⟩
    | some v => exact ⟨v, by simp [hsc]⟩

/-- Spec scenario memory: dest = [1,2,3,4] at address 0, src = [1,2,99,4] at
address 100. -/
def stEx : MemState :=
  ⟨fun a =>
    if a = 0 then 1 else if a = 1 then 2 else if a = 2 then 3 else
    if a = 3 then 4 else if a = 100 then 1 else if a = 101 then 2 else
    if a = 102 then 99 else if a = 103 then 4 else 0,
   fun _ => 0⟩

/-- Memory holding 5 in every element cell. -/
def stFive : MemState := ⟨fun _ => 5, fun _ => 0⟩

/-- Memory exercising the sign quirk: 0x80000000 at address 0, 0 elsewhere. -/
def stBig : MemState := ⟨fun a => if a = 0 then 2147483648 else 0, fun _ => 0⟩

/-- Claim C1: for every call that passes all constraint checks, with distinct
dest/src addresses and first mismatching 32-bit pair at index `i` within the
scanned length, the call succeeds and the stored diff equals
`dest[i] - src[i]` computed as unsigned 32-bit wraparound subtraction
(reinterpreted as a signed 32-bit value, the convention under which the spec
scenario yields -96) — hence in particular it has that result's sign. -/
theorem claim_C1 (rmax32 : Nat) (st : MemState) (destA srcA dA : Addr)
    (dmax smax i : Nat) (h1 : dmax ≠ 0) (h2 : dmax ≤ rmax32) (h3 : smax ≠ 0)
    (h4 : smax ≤ dmax) (h5 : destA ≠ srcA) (hi : i < smax)
    (heq : ∀ j, j < i → read32 st (destA + j) = read32 st (srcA + j))
    (hne : read32 st (destA + i) ≠ read32 st (srcA + i)) :
    (memcmp32_s rmax32 st (some destA) dmax (some srcA) smax (some dA)).ret =
        Errno.EOK ∧
      (memcmp32_s rmax32 st (some destA) dmax (some srcA) smax
          (some dA)).st.mInt dA =
        toInt32 (usub32 (read32 st (destA + i)) (read32 st (srcA + i))) := by
  have hmin : min dmax smax = smax := min_eq_right h4
  have hfm : firstMismatch st destA srcA (min dmax smax) = some i := by
    rw [hmin]
    exact firstMismatch_eq_some st i smax destA srcA hi heq hne
  rw [memcmp32_s_valid rmax32 st destA dmax srcA smax dA h1 h2 h3 h4 h5,
    scan32_eq st dmax smax destA srcA]
  simp [hfm, writeInt, Function.update_same]

/-- Witness for C1: the spec scenario dest = [1,2,3,4], dmax = 4,
src = [1,2,99,4], smax = 4 succeeds with diff = 3 - 99 = -96 under the
unsigned-subtraction convention. -/
theorem claim_C1_witness :
    ((4 : Nat) ≠ 0 ∧ (4 : Nat) ≤ 100 ∧ (4 : Nat) ≠ 0 ∧ (4 : Nat) ≤ 4 ∧
      (0 : Addr) ≠ 100 ∧ (2 : Nat) < 4 ∧
      (∀ j, j < 2 → read32 stEx (0 + j) = read32 stEx (100 + j)) ∧
      read32 stEx (0 + 2) ≠ read32 stEx (100 + 2)) ∧
    ((memcmp32_s 100 stEx (some 0) 4 (some 100) 4 (some 200)).ret =
        Errno.EOK ∧
      (memcmp32_s 100 stEx (some 0) 4 (some 100) 4 (some 200)).st.mInt 200 =
        toInt32 (usub32 (read32 stEx (0 + 2)) (read32 stEx (100 + 2)))) ∧
    toInt32 (usub32 (read32 stEx (0 + 2)) (read32 stEx (100 + 2))) = -96 :=
  ⟨⟨by decide, by decide, by decide, by decide, by decide, by decide,
      by decide, by decide⟩,
    claim_C1 100 stEx 0 100 200 4 4 2 (by decide) (by decide) (by decide)
      (by decide) (by decide) (by decide) (by decide) (by decide),
    by decide⟩

/-- Claim C2: the constraints are validated strictly in the documented order
— diff non-null, dest non-null, src non-null, dmax nonzero, dmax within the
limit, smax nonzero, smax ≤ dmax — and the returned code is that of the first
violated constraint, independent of buffer contents; in particular
smax > dmax is rejected with ESLEMAX even when the first dmax elements of the
two buffers are identical. -/
theorem claim_C2 :
    (∀ (rmax32 : Nat) (st : MemState) (dest : Option Addr) (dmax : Nat)
        (src : Option Addr) (smax : Nat) (diff : Option Addr),
      (memcmp32_s rmax32 st dest dmax src smax diff).ret =
        (firstViolation rmax32 dest dmax src smax diff).getD Errno.EOK) ∧
    (memcmp32_s 10 stFive (some 0) 2 (some 100) 3 (some 50)).ret =
        Errno.ESLEMAX ∧
    (∀ j, j < 2 → read32 stFive (0 + j) = read32 stFive (100 + j)) :=
  ⟨memcmp32_s_ret, by decide, by decide⟩

/-- Claim C3: when all constraint checks pass and the two buffer pointers are
the identical base address, the call returns EOK with diff 0 and reads no
buffer memory. -/
theorem claim_C3 (rmax32 : Nat) (st : MemState) (a dA : Addr)
    (dmax smax : Nat) (h1 : dmax ≠ 0) (h2 : dmax ≤ rmax32) (h3 : smax ≠ 0)
    (h4 : smax ≤ dmax) :
    (memcmp32_s rmax32 st (some a) dmax (some a) smax (some dA)).ret =
        Errno.EOK ∧
      (memcmp32_s rmax32 st (some a) dmax (some a) smax (some dA)).st.mInt dA
        = 0 ∧
      (memcmp32_s rmax32 st (some a) dmax (some a) smax (some dA)).reads
        = [] := by
  rw [memcmp32_s_same rmax32 st a dmax smax dA h1 h2 h3 h4]
  exact ⟨rfl, by simp [writeInt, Function.update_same], rfl⟩

/-- Witness for C3: comparing address 7 against itself with dmax = smax = 2
succeeds with diff 0 and an empty read trace. -/
theorem claim_C3_witness :
    ((2 : Nat) ≠ 0 ∧ (2 : Nat) ≤ 3 ∧ (2 : Nat) ≠ 0 ∧ (2 : Nat) ≤ 2) ∧
    ((memcmp32_s 3 stFive (some 7) 2 (some 7) 2 (some 0)).ret = Errno.EOK ∧
      (memcmp32_s 3 stFive (some 7) 2 (some 7) 2 (some 0)).st.mInt 0 = 0 ∧
      (memcmp32_s 3 stFive (some 7) 2 (some 7) 2 (some 0)).reads = []) :=
  ⟨⟨by decide, by decide, by decide, by decide⟩,
    claim_C3 3 stFive 7 0 2 2 (by decide) (by decide) (by decide) (by decide)⟩

/-- Claim C4: for all inputs passing every constraint check whose first
`min dmax smax` element pairs are equal, the call returns EOK and the stored
diff is 0. -/
theorem claim_C4 (rmax32 : Nat) (st : MemState) (destA srcA dA : Addr)
    (dmax smax : Nat) (h1 : dmax ≠ 0) (h2 : dmax ≤ rmax32) (h3 : smax ≠ 0)
    (h4 : smax ≤ dmax)
    (heq : ∀ j, j < min dmax smax →
      read32 st (destA + j) = read32 st (srcA + j)) :
    (memcmp32_s rmax32 st (some destA) dmax (some srcA) smax (some dA)).ret =
        Errno.EOK ∧
      (memcmp32_s rmax32 st (some destA) dmax (some srcA) smax
        (some dA)).st.mInt dA = 0 := by
  by_cases h5 : destA = srcA
  · subst h5
    rw [memcmp32_s_same rmax32 st destA dmax smax dA h1 h2 h3 h4]
    exact ⟨rfl, by simp [writeInt, Function.update_same]⟩
  · have hfm : firstMismatch st destA srcA (min dmax smax) = none :=
      firstMismatch_eq_none st (min dmax smax) destA srcA heq
    rw [memcmp32_s_valid rmax32 st destA dmax srcA smax dA h1 h2 h3 h4 h5,
      scan32_eq st dmax smax destA srcA]
    simp [hfm, writeInt, Function.update_same]

/-- Witness for C4: two all-fives buffers at distinct addresses with dmax = 3,
smax = 2 compare equal: EOK and diff 0. -/
theorem claim_C4_witness :
    ((3 : Nat) ≠ 0 ∧ (3 : Nat) ≤ 5 ∧ (2 : Nat) ≠ 0 ∧ (2 : Nat) ≤ 3 ∧
      (∀ j, j < min 3 2 → read32 stFive (0 + j) = read32 stFive (100 + j))) ∧
    ((memcmp32_s 5 stFive (some 0) 3 (some 100) 2 (some 50)).ret =
        Errno.EOK ∧
      (memcmp32_s 5 stFive (some 0) 3 (some 100) 2 (some 50)).st.mInt 50
        = 0) :=
  ⟨⟨by decide, by decide, by decide, by decide, by decide⟩,
    claim_C4 5 stFive 0 100 50 3 2 (by decide) (by decide) (by decide)
      (by decide) (by decide)⟩

/-- Claim C5: on every call that passes all checks with distinct dest/src
addresses, the scan reads the two buffers in interleaved lock-step from index
0, examines at most `min dmax smax` (= smax) element pairs, and when a first
mismatch exists at index k it examines exactly the pairs 0..k, none later. -/
theorem claim_C5 (rmax32 : Nat) (st : MemState) (destA srcA dA : Addr)
    (dmax smax : Nat) (h1 : dmax ≠ 0) (h2 : dmax ≤ rmax32) (h3 : smax ≠ 0)
    (h4 : smax ≤ dmax) (h5 : destA ≠ srcA) :
    (memcmp32_s rmax32 st (some destA) dmax (some srcA) smax (some dA)).reads
        = readTrace destA srcA (examined st destA srcA dmax smax) ∧
      examined st destA srcA dmax smax ≤ min dmax smax ∧
      min dmax smax = smax ∧
      (∀ k, firstMismatch st destA srcA (min dmax smax) = some k →
        examined st destA srcA dmax smax = k + 1) := by
  refine ⟨?_, examined_le st destA srcA dmax smax, min_eq_right h4, ?_⟩
  · rw [memcmp32_s_valid rmax32 st destA dmax srcA smax dA h1 h2 h3 h4 h5,
      scan32_eq st dmax smax destA srcA]
    cases hfm : firstMismatch st destA srcA (min dmax smax) <;> simp [hfm]
  · intro k hk
    simp [examined, hk]

/-- Witness for C5: in the spec scenario the mismatch is at index 2, so the
scan examines exactly 3 ≤ 4 pairs and reads the six addresses
0,100,1,101,2,102 in that interleaved order. -/
theorem claim_C5_witness :
    ((4 : Nat) ≠ 0 ∧ (4 : Nat) ≤ 100 ∧ (4 : Nat) ≠ 0 ∧ (4 : Nat) ≤ 4 ∧
      (0 : Addr) ≠ 100) ∧
    ((memcmp32_s 100 stEx (some 0) 4 (some 100) 4 (some 200)).reads =
        readTrace 0 100 (examined stEx 0 100 4 4) ∧
      examined stEx 0 100 4 4 ≤ min 4 4 ∧
      min 4 4 = 4 ∧
      (∀ k, firstMismatch stEx 0 100 (min 4 4) = some k →
        examined stEx 0 100 4 4 = k + 1)) ∧
    examined stEx 0 100 4 4 = 3 ∧
    readTrace 0 100 3 = [0, 100, 1, 101, 2, 102] :=
  ⟨⟨by decide, by decide, by decide, by decide, by decide⟩,
    claim_C5 100 stEx 0 100 200 4 4 (by decide) (by decide) (by decide)
      (by decide) (by decide),
    by decide, by decide⟩

/-- Claim C6: whenever a constraint check other than the diff-null check
fails (dest null, src null, dmax zero, dmax over the limit, smax zero, or
smax > dmax), the diff output cell holds the sentinel -1 when the error is
returned. -/
theorem claim_C6 (rmax32 : Nat) (st : MemState) (dest : Option Addr)
    (dmax : Nat) (src : Option Addr) (smax : Nat) (dA : Addr)
    (hviol : dest = none ∨ src = none ∨ dmax = 0 ∨ rmax32 < dmax ∨ smax = 0 ∨
      dmax < smax) :
    (memcmp32_s rmax32 st dest dmax src smax (some dA)).st.mInt dA = -1 ∧
      (memcmp32_s rmax32 st dest dmax src smax (some dA)).ret ≠ Errno.EOK := by
  rcases dest with _ | destA
  · exact ⟨by simp [memcmp32_s, writeInt, Function.update_same],
      by simp [memcmp32_s]⟩
  rcases src with _ | srcA
  · exact ⟨by simp [memcmp32_s, writeInt, Function.update_same],
      by simp [memcmp32_s]⟩
  have hnum : dmax = 0 ∨ rmax32 < dmax ∨ smax = 0 ∨ dmax < smax := by
    rcases hviol with h | h | h | h | h | h
    · simp at h
    · simp at h
    · exact Or.inl h
    · exact Or.inr (Or.inl h)
    · exact Or.inr (Or.inr (Or.inl h))
    · exact Or.inr (Or.inr (Or.inr h))
  by_cases ha : dmax = 0
  · exact ⟨by simp [memcmp32_s, ha, writeInt, Function.update_same],
      by simp [memcmp32_s, ha]⟩
  by_cases hb : dmax > rmax32
  · exact ⟨by simp [memcmp32_s, ha, hb, writeInt, Function.update_same],
      by simp [memcmp32_s, ha, hb]⟩
  by_cases hc : smax = 0
  · exact ⟨by simp [memcmp32_s, ha, hb, hc, writeInt, Function.update_same],
      by simp [memcmp32_s, ha, hb, hc]⟩
  by_cases hd : smax > dmax
  · exact ⟨by simp [memcmp32_s, ha, hb, hc, hd, writeInt,
        Function.update_same],
      by simp [memcmp32_s, ha, hb, hc, hd]⟩
  · exfalso
    rcases hnum with h | h | h | h <;> omega

/-- Witness for C6: dmax = 0 with a valid diff pointer returns a non-EOK code
and leaves -1 in the diff cell. -/
theorem claim_C6_witness :
    ((some 0 : Option Addr) = none ∨ (some 100 : Option Addr) = none ∨
      (0 : Nat) = 0 ∨ (5 : Nat) < 0 ∨ (3 : Nat) = 0 ∨ (0 : Nat) < 3) ∧
    ((memcmp32_s 5 stFive (some 0) 0 (some 100) 3 (some 50)).st.mInt 50 = -1 ∧
      (memcmp32_s 5 stFive (some 0) 0 (some 100) 3 (some 50)).ret ≠
        Errno.EOK) :=
  ⟨by decide,
    claim_C6 5 stFive (some 0) 0 (some 100) 3 50 (by decide)⟩

/-- Claim C7: the call returns a non-EOK code exactly when one of the seven
documented constraints is violated; whenever all constraints hold it returns
EOK, whatever the buffer contents. -/
theorem claim_C7 (rmax32 : Nat) (st : MemState) (dest : Option Addr)
    (dmax : Nat) (src : Option Addr) (smax : Nat) (diff : Option Addr) :
    (memcmp32_s rmax32 st dest dmax src smax diff).ret = Errno.EOK ↔
      constraintsOK rmax32 dest dmax src smax diff := by
  rw [memcmp32_s_ret]
  rcases diff with _ | dA
  · simp [firstViolation, constraintsOK]
  rcases dest with _ | destA
  · simp [firstViolation, constraintsOK]
  rcases src with _ | srcA
  · simp [firstViolation, constraintsOK]
  · simp only [firstViolation, constraintsOK]
    split_ifs with ha hb hc hd he hf hg <;> simp_all

/-- Claim C8: on every call, either the call succeeds and the constraint
handler is never invoked, or it fails and the handler is invoked exactly
once, with a message, a NULL context token, and the error kind equal to the
returned code. -/
theorem claim_C8 (rmax32 : Nat) (st : MemState) (dest : Option Addr)
    (dmax : Nat) (src : Option Addr) (smax : Nat) (diff : Option Addr) :
    ((memcmp32_s rmax32 st dest dmax src smax diff).ret = Errno.EOK ∧
        (memcmp32_s rmax32 st dest dmax src smax diff).handlers = []) ∨
      (∃ m, (memcmp32_s rmax32 st dest dmax src smax diff).handlers =
          [(m, none, (memcmp32_s rmax32 st dest dmax src smax diff).ret)] ∧
        (memcmp32_s rmax32 st dest dmax src smax diff).ret ≠ Errno.EOK) := by
  rcases diff with _ | dA
  · exact Or.inr ⟨"memcmp32_s: diff is null", rfl, by simp [memcmp32_s]⟩
  rcases dest with _ | destA
  · exact Or.inr ⟨"memcmp32_s: dest is null", rfl, by simp [memcmp32_s]⟩
  rcases src with _ | srcA
  · exact Or.inr ⟨"memcmp32_s: src is null", rfl, by simp [memcmp32_s]⟩
  by_cases h1 : dmax = 0
  · exact Or.inr ⟨"memcmp32_s: dmax is 0", by simp [memcmp32_s, h1],
      by simp [memcmp32_s, h1]⟩
  by_cases h2 : dmax > rmax32
  · exact Or.inr ⟨"memcmp32_s: dmax exceeds max",
      by simp [memcmp32_s, h1, h2], by simp [memcmp32_s, h1, h2]⟩
  by_cases h3 : smax = 0
  · exact Or.inr ⟨"memcmp32_s: smax is 0",
      by simp [memcmp32_s, h1, h2, h3], by simp [memcmp32_s, h1, h2, h3]⟩
  by_cases h4 : smax > dmax
  · exact Or.inr ⟨"memcmp32_s: smax exceeds dmax",
      by simp [memcmp32_s, h1, h2, h3, h4],
      by simp [memcmp32_s, h1, h2, h3, h4]⟩
  by_cases h5 : destA = srcA
  · subst h5
    rw [memcmp32_s_same rmax32 st destA dmax smax dA h1 (not_lt.mp h2) h3
      (not_lt.mp h4)]
    exact Or.inl ⟨rfl, rfl⟩
  · rw [memcmp32_s_valid rmax32 st destA dmax srcA smax dA h1 (not_lt.mp h2)
      h3 (not_lt.mp h4) h5]
    cases hsc : (scan32 st dmax smax destA srcA).1 <;>
      exact Or.inl ⟨by simp [hsc], by simp [hsc]⟩

/-- Claim C9: the stored diff is the unsigned 32-bit wraparound difference
reinterpreted as a signed two's-complement 32-bit value: with
dest[0] = 0x80000000 and src[0] = 0 the call succeeds, dest[0] is strictly
greater than src[0] as an unsigned value, yet the stored diff is the negative
value -2147483648 — the sign of diff does not always indicate the unsigned
ordering. -/
theorem claim_C9 :
    (memcmp32_s 5 stBig (some 0) 1 (some 100) 1 (some 200)).ret =
        Errno.EOK ∧
      (memcmp32_s 5 stBig (some 0) 1 (some 100) 1 (some 200)).st.mInt 200 =
        toInt32 (usub32 (read32 stBig 0) (read32 stBig 100)) ∧
      toInt32 (usub32 (read32 stBig 0) (read32 stBig 100)) = -2147483648 ∧
      read32 stBig 100 < read32 stBig 0 ∧ (-2147483648 : Int) < 0 := by
  refine ⟨?_, ?_, by decide, by decide, by decide⟩
  · decide
  · decide

/-- Claim C10: the function never writes the 32-bit element memory that dest
and src point into; the only cell it ever modifies is the int cell the diff
pointer designates, and when the diff pointer is NULL it modifies no memory
at all. -/
theorem claim_C10 (rmax32 : Nat) (st : MemState) (dest : Option Addr)
    (dmax : Nat) (src : Option Addr) (smax : Nat) (diff : Option Addr) :
    (memcmp32_s rmax32 st dest dmax src smax diff).st.m32 = st.m32 ∧
      (memcmp32_s rmax32 st dest dmax src smax diff).st.mInt =
        (match diff with
         | none => st.mInt
         | some dA => Function.update st.mInt dA
             ((memcmp32_s rmax32 st dest dmax src smax diff).st.mInt dA)) := by
  rcases diff with _ | dA
  · exact ⟨rfl, rfl⟩
  · obtain ⟨w, hw⟩ := memcmp32_s_st_eq rmax32 st dest dmax src smax dA
    rw [hw]
    exact ⟨rfl, by simp [writeInt, Function.update_same]⟩
